import Mathlib

/-!
Shallow embedding of the retrieval-augmented question answering pipeline:
scope validation (`backend/guardrail/scope_validator.py`), text chunking
(`backend/preprocessing/chunker.py`), retrieval with query expansion and
metadata filters (`backend/rag/retriever.py`, `backend/preprocessing/vector_store.py`),
and answer orchestration (`backend/rag/answer_generator.py`).

Python strings are modelled by Lean `String`, with character-level operations
on `List Char`.  Python floats are modelled by `ℚ`.  Python dicts whose key
sets vary are modelled by structures with `Option` fields (a `none` field means
the key is absent).  Fallible calls into external components (embedding model,
vector index, generation model) are modelled as explicit function parameters
returning `Except String _`; an `Except.error` models a raised exception.
-/

/-! ### Character-level helpers -/

/-- Word characters of the regex class `\w` (ASCII fragment). -/
def isWordChar (c : Char) : Bool := c.isAlphanum || c = '_'

/-- Accumulating worker for `runsBy`: `cur` holds the current (reversed) run. -/
def runsByGo (p : Char → Bool) (cur : List Char) : List Char → List (List Char)
  | [] => if cur.isEmpty then [] else [cur.reverse]
  | c :: cs =>
    if p c then runsByGo p (c :: cur) cs
    else (if cur.isEmpty then [] else [cur.reverse]) ++ runsByGo p [] cs

/-- Maximal runs of characters satisfying `p`, in order, other characters
discarded.  With `p := isWordChar` this is `re.findall(r'\b\w+\b', s)`; with
`p := fun c => !c.isWhitespace` it is Python `str.split()`. -/
def runsBy (p : Char → Bool) (l : List Char) : List (List Char) := runsByGo p [] l

/-- Python `text.split()`: maximal whitespace-free runs. -/
def pyWords (s : String) : List String :=
  (runsBy (fun c => !c.isWhitespace) s.toList).map (fun cs => String.mk cs)

/-- Python `s.lower()` (character-wise lowercasing). -/
def lowerChars (s : String) : List Char := s.toList.map Char.toLower

/-- Python substring containment `pat in s`. -/
def inStr (pat : List Char) : List Char → Bool
  | [] => pat.isEmpty
  | c :: t => pat.isPrefixOf (c :: t) || inStr pat t

/-- Python `' '.join(parts)` (and its analogues for other separators). -/
def pyJoin (sep : String) : List String → String
  | [] => ""
  | p :: ps => ps.foldl (fun acc q => acc ++ sep ++ q) p

/-- Python `s.strip()`: remove leading and trailing whitespace. -/
def pyStrip (s : String) : String :=
  String.mk (((s.toList.dropWhile Char.isWhitespace).reverse.dropWhile Char.isWhitespace).reverse)

/-! ### ScopeValidator (`backend/guardrail/scope_validator.py`) -/

/-- `DEPARTMENT_KEYWORDS` from `backend/config.py`. -/
def DEPARTMENT_KEYWORDS : List String :=
  ["program", "programs", "eligibility", "faculty", "department", "departments",
   "dean", "chairman", "m.sc", "msc", "ph.d", "phd", "engineering", "admission",
   "admissions", "course", "courses", "semester", "credit", "credits", "fee", "fees",
   "requirement", "requirements", "degree", "degrees", "undergraduate", "graduate",
   "postgraduate", "bachelor", "master", "doctorate", "curriculum", "syllabus",
   "professor", "lecturer", "instructor", "staff", "hod", "head", "contact",
   "email", "phone", "office", "building", "lab", "laboratory", "research",
   "thesis", "dissertation", "cgpa", "gpa", "merit", "scholarship", "duration"]

/-- `GUARDRAIL_MESSAGE` from `backend/config.py`. -/
def GUARDRAIL_MESSAGE : String := "I only answer department information."

/-- Result triple of `ScopeValidator.is_department_related`. -/
structure ScopeResult where
  is_related : Bool
  score : ℚ
  reason : String
  deriving DecidableEq

/-- The `keyword_matches` list built by `is_department_related`: lower-cased
keywords occurring as substrings of the lower-cased question. -/
def matchedKeywords (kws : List String) (q : String) : List String :=
  (kws.map (fun kw => String.mk (lowerChars kw))).filter
    (fun kw => inStr kw.toList (lowerChars q))

/-- The `reason` string of `is_department_related`. -/
def mkReason (kwMatches : List String) : String :=
  if kwMatches.isEmpty then "No keyword matches"
  else "Matched " ++ toString kwMatches.length ++ " keywords: " ++ toString (kwMatches.take 5)

/-- `ScopeValidator.is_department_related` (lines 17-41).  The guard
`not question or not question.strip()` is equivalent to the question
consisting of whitespace only. -/
def is_department_related (kws : List String) (threshold : ℚ) (q : String) : ScopeResult :=
  if q.toList.all Char.isWhitespace then ⟨false, 0, "Empty question"⟩
  else
    let question_words := runsBy isWordChar (lowerChars q)
    if question_words.isEmpty then ⟨false, 0, "No valid words in question"⟩
    else
      let kwMatches := matchedKeywords kws q
      let match_score : ℚ := (kwMatches.length : ℚ) / (question_words.length : ℚ)
      ⟨decide (threshold ≤ match_score ∨ 2 ≤ kwMatches.length), match_score, mkReason kwMatches⟩

/-- `ScopeValidator.validate_and_respond` (lines 43-51). -/
def validate_and_respond (kws : List String) (threshold : ℚ) (q : String) : Bool × String :=
  if (is_department_related kws threshold q).is_related then (true, "")
  else (false, GUARDRAIL_MESSAGE)

/-- `ScopeValidator.add_keywords` (lines 53-56): the keyword list after
`self.keywords.extend(new_keywords)`. -/
def add_keywords (kws new_keywords : List String) : List String := kws ++ new_keywords

/-! ### TextChunker (`backend/preprocessing/chunker.py`) -/

/-- Worker for the `chunk_by_words` while-loop.  The step between window
starts is `dp + 1`; the caller instantiates `dp := S - O - 1` so that the
step is `S - O` whenever `O < S`. -/
def chunkWindowsAux (S dp : Nat) (ws : List α) : List (List α) :=
  if _h1 : ws.isEmpty then []
  else if _h2 : ws.length ≤ S then [ws]
  else ws.take S :: chunkWindowsAux S dp (ws.drop (dp + 1))
termination_by ws.length
decreasing_by
  simp only [List.length_drop]
  omega

/-- The word windows produced by `TextChunker.chunk_by_words` for
`chunk_size = S`, `overlap = O`. -/
def chunkWindows (S O : Nat) (ws : List α) : List (List α) :=
  chunkWindowsAux S (S - O - 1) ws

/-- `TextChunker.chunk_by_words` (lines 14-38). -/
def chunk_by_words (S O : Nat) (text : String) : List String :=
  if text = "" then []
  else (chunkWindows S O (pyWords text)).map (fun cws => pyJoin " " cws)

/-- Lookbehind test of the sentence-split regex `(?<=[.!?])\s+`: does the
current (reversed) accumulator end in a sentence terminator? -/
def sentEnd : List Char → Bool
  | [] => false
  | p :: _ => p = '.' || p = '!' || p = '?'

/-- Worker modelling `re.split(r'(?<=[.!?])\s+', text)`: split at each maximal
whitespace run whose preceding character is `.`, `!` or `?`.  `cur` is the
reversed current segment; `skipping` is true while a matched whitespace run is
being consumed. -/
def sentSplitGo (cur : List Char) (skipping : Bool) : List Char → List (List Char)
  | [] => [cur.reverse]
  | c :: cs =>
    if skipping then
      if c.isWhitespace then sentSplitGo cur true cs
      else sentSplitGo [c] false cs
    else
      if c.isWhitespace && sentEnd cur then cur.reverse :: sentSplitGo [] true cs
      else sentSplitGo (c :: cur) false cs

/-- `re.split(r'(?<=[.!?])\s+', text)` as a list of strings. -/
def sentenceSplit (text : String) : List String :=
  (sentSplitGo [] false text.toList).map (fun cs => String.mk cs)

/-- `if current_chunk: chunks.append(' '.join(current_chunk))` with a reversed
accumulator. -/
def emitChunk (cur : List String) : List String :=
  if cur.isEmpty then [] else [pyJoin " " cur.reverse]

/-- The greedy sentence-packing loop of `chunk_by_sentences`: `cur` is the
reversed `current_chunk`, `cnt` is `current_word_count`. -/
def packGo (S : Nat) (cur : List String) (cnt : Nat) : List String → List String
  | [] => emitChunk cur
  | s :: rest =>
    let w := (pyWords s).length
    if cnt + w ≤ S then packGo S (s :: cur) (cnt + w) rest
    else emitChunk cur ++ packGo S [s] w rest

/-- `TextChunker.chunk_by_sentences` (lines 56-81). -/
def chunk_by_sentences (S : Nat) (text : String) : List String :=
  packGo S [] 0 (sentenceSplit text)

/-- Character class `[A-Z\s]` of the all-caps-heading alternative. -/
def isClassChar (c : Char) : Bool := c.isUpper || c.isWhitespace

/-- Zero-width match of the alternative `\bDepartment of\b` at position `i`. -/
def deptAt (cs : List Char) (i : Nat) : Bool :=
  let pat := "Department of".toList
  ((cs.drop i).take pat.length == pat)
    && (i == 0 || !(isWordChar (cs.getD (i - 1) ' ')))
    && (match (cs.drop (i + pat.length)).head? with
        | none => true
        | some c => !(isWordChar c))

/-- Zero-width match of the alternative `^\d+\.` (multiline) at position `i`. -/
def lineNumAt (cs : List Char) (i : Nat) : Bool :=
  (i == 0 || cs.getD (i - 1) ' ' == '\n')
    && (let ds := (cs.drop i).takeWhile Char.isDigit
        !ds.isEmpty && (cs.drop (i + ds.length)).head? == some '.')

/-- Zero-width match of the alternative `\n[A-Z][A-Z\s]{5,}\n` at position `i`.
Since `\n` itself belongs to `[A-Z\s]`, a match exists iff the maximal class
run after the first two characters contains a `\n` at offset `≥ 5`. -/
def capsAt (cs : List Char) (i : Nat) : Bool :=
  match cs.drop i with
  | '\n' :: c :: rest => c.isUpper && ((rest.takeWhile isClassChar).drop 5).contains '\n'
  | _ => false

/-- The section-heading lookahead of `chunk_by_sections` matches at `i`. -/
def sectionMatchAt (cs : List Char) (i : Nat) : Bool :=
  deptAt cs i || lineNumAt cs i || capsAt cs i

/-- All split positions of `re.split` with the zero-width heading lookahead. -/
def sectionSplitPositions (cs : List Char) : List Nat :=
  (List.range cs.length).filter (fun i => sectionMatchAt cs i)

/-- Segments of `cs` delimited by the (sorted) absolute positions `ps`,
starting from offset `start`. -/
def segmentsFrom (cs : List Char) (start : Nat) : List Nat → List (List Char)
  | [] => [cs.drop start]
  | p :: ps => (cs.drop start).take (p - start) :: segmentsFrom cs p ps

/-- `TextChunker.chunk_by_sections` (lines 83-110). -/
def chunk_by_sections (S : Nat) (text : String) : List String :=
  let cs := text.toList
  let sections := (segmentsFrom cs 0 (sectionSplitPositions cs)).map (fun l => String.mk l)
  if sections.isEmpty || sections.length == 1 then chunk_by_sentences S text
  else
    ((sections.map pyStrip).filter (fun s => !(s == ""))).flatMap
      (fun sec => chunk_by_sentences S sec)

/-! ### Retriever and VectorStore (`backend/rag/retriever.py`,
`backend/preprocessing/vector_store.py`) -/

/-- Metadata stored with a chunk, as used by the orchestrator
(`meta.get('chunk_id', 0)`, `meta.get('source', 'unknown')`); a `none` field
models an absent dict key. -/
structure DocMeta where
  chunk_id : Option Nat := none
  source : Option String := none
  deriving DecidableEq

/-- One retrieved document as assembled by `Retriever.retrieve` (lines 52-59). -/
structure Doc where
  content : String
  metadata : DocMeta
  id : String
  distance : Option ℚ
  deriving DecidableEq

/-- The per-query row of the raw result dict returned by `collection.query`
(`results['documents'][0]` etc.); `none` models a falsy/absent field. -/
structure QueryResult where
  documents : List String
  metadatas : Option (List DocMeta) := none
  ids : Option (List String) := none
  distances : Option (List ℚ) := none
  deriving DecidableEq

/-- Keyword arguments assembled by `VectorStore.query` (lines 80-93) for
`collection.query`; `whereFilter` models the `where` argument. -/
structure QueryParams where
  n_results : Nat
  query_embeddings : Option (List (List ℚ)) := none
  query_texts : Option (List (Option String)) := none
  whereFilter : Option String := none
  deriving DecidableEq

/-- `VectorStore.query` (lines 76-100): dispatches to explicit query
embeddings when provided, otherwise to the query text; the underlying
`collection.query` call is the abstract parameter `collectionQuery`, and its
exception (re-raised by the method) is the `Except.error` case. -/
def vector_store_query (collectionQuery : QueryParams → Except String QueryResult)
    (query_text : Option String) (n_results : Nat) (whereFilter : Option String)
    (query_embeddings : Option (List ℚ)) : Except String QueryResult :=
  let p0 : QueryParams := { n_results := n_results }
  let p1 := match query_embeddings with
    | some v => { p0 with query_embeddings := some [v] }
    | none => { p0 with query_texts := some [query_text] }
  let p2 := match whereFilter with
    | some w => { p1 with whereFilter := some w }
    | none => p1
  collectionQuery p2

/-- `Retriever._expand_query` (lines 68-82). -/
def expand_query (q : String) : String :=
  let ql := lowerChars q
  let expansions : List String :=
    (if inStr "admission".toList ql || inStr "requirement".toList ql
        || inStr "eligibility".toList ql
     then ["eligibility criteria admission requirements"] else [])
    ++ (if inStr "faculty".toList ql || inStr "professor".toList ql
           || inStr "staff".toList ql
        then ["faculty members professors"] else [])
    ++ (if inStr "program".toList ql || inStr "degree".toList ql
        then ["offered programs degrees"] else [])
  if expansions.isEmpty then q else q ++ " " ++ pyJoin " " expansions

/-- Trigger terms of `Retriever._get_metadata_filter` for `has_eligibility`. -/
def eligibilityTerms : List String := ["admission", "requirement", "eligibility", "criteria"]

/-- Trigger terms of `Retriever._get_metadata_filter` for `has_faculty`. -/
def facultyTerms : List String := ["faculty", "professor", "staff", "dean", "chairman"]

/-- Trigger terms of `Retriever._get_metadata_filter` for `has_programs`. -/
def programTerms : List String := ["program", "degree", "offered"]

/-- `any(term in query_lower for term in terms)`. -/
def hasTerm (terms : List String) (ql : List Char) : Bool :=
  terms.any (fun t => inStr t.toList ql)

/-- `Retriever._get_metadata_filter` (lines 84-95); the returned filter dict
`{key: True}` is modelled by `some key`. -/
def get_metadata_filter (q : String) : Option String :=
  let ql := lowerChars q
  if hasTerm eligibilityTerms ql then some "has_eligibility"
  else if hasTerm facultyTerms ql then some "has_faculty"
  else if hasTerm programTerms ql then some "has_programs"
  else none

/-- The filter actually used by `Retriever.retrieve` (line 38):
`self._get_metadata_filter(query) if APPLY_METADATA_FILTER else None`. -/
def retrieval_filter (applyFilter : Bool) (q : String) : Option String :=
  if applyFilter then get_metadata_filter q else none

/-- The document-assembly loop of `Retriever.retrieve` (lines 52-59). -/
def assembleDocs (results : QueryResult) : List Doc :=
  results.documents.mapIdx (fun i doc =>
    { content := doc
      metadata := match results.metadatas with
        | some ms => ms.getD i {}
        | none => {}
      id := match results.ids with
        | some ids => ids.getD i ("doc_" ++ toString i)
        | none => "doc_" ++ toString i
      distance := some (match results.distances with
        | some ds => ds.getD i 0
        | none => 0) })

/-- `Retriever.retrieve` (lines 33-66).  `embedFn` models
`self.embedder.embed_text` (the embedder configured with the ingestion model);
its failure is swallowed into `query_embedding = None` (lines 41-44).
`collectionQuery` models the underlying Chroma collection query. -/
def retrieve (applyFilter : Bool)
    (embedFn : String → Except String (List ℚ))
    (collectionQuery : QueryParams → Except String QueryResult)
    (q : String) (k : Nat) : Except String (List Doc) :=
  let expanded_query := expand_query q
  let metadata_filter := retrieval_filter applyFilter q
  let query_embedding : Option (List ℚ) :=
    match embedFn expanded_query with
    | .ok v => some v
    | .error _ => none
  (vector_store_query collectionQuery (some expanded_query) k metadata_filter
      query_embedding).map assembleDocs

/-- `Retriever.format_context` (lines 97-110). -/
def format_context (documents : List Doc) : String :=
  if documents.isEmpty then ""
  else pyJoin "\n" (documents.mapIdx (fun i d =>
    "[Context " ++ toString (i + 1) ++ "]\n" ++ d.content ++ "\n"))

/-! ### LLMClient and AnswerGenerator (`backend/rag/llm_client.py`,
`backend/rag/answer_generator.py`) -/

/-- `LLMClient.create_prompt` (lines 143-159). -/
def create_prompt (context question : String) : String :=
  "You are a precise information assistant for UET (University of Engineering and Technology).\n\nCONTEXT:\n"
    ++ context
    ++ "\n\nQUESTION: " ++ question
    ++ "\n\nINSTRUCTIONS:\n- Answer using ONLY the exact information from the CONTEXT above\n- Quote specific details from the context when possible\n- If the context doesn\x27t contain the answer, say \"The provided context does not contain this information.\"\n- Do NOT make up names, numbers, or any other details\n- Be concise and accurate\n\nANSWER:"

/-- The `metadata` dict of an answer; `none` fields model absent keys.  The
`question` key is present in every branch. -/
structure AnswerMetadata where
  guardrail_triggered : Option Bool := none
  retrieval_count : Option Nat := none
  question : String
  top_k : Option Nat := none
  error : Option String := none
  deriving DecidableEq

/-- One record of the `sources` list (lines 82-86). -/
structure SourceRec where
  chunk_id : Nat
  source : String
  relevance_score : ℚ
  deriving DecidableEq

/-- The result dict of `AnswerGenerator.generate_answer`. -/
structure Answer where
  answer : String
  citations : List String
  sources : List SourceRec
  metadata : AnswerMetadata
  deriving DecidableEq

/-- The source record built per retrieved document (lines 79-86):
`dist = doc.get('distance', 0.0)`; `relevance_score` is
`float(1 - dist) if dist else 0.0`, so a missing **or zero** distance gives
score `0`. -/
def mkSource (doc : Doc) : SourceRec :=
  let dist := doc.distance.getD 0
  { chunk_id := doc.metadata.chunk_id.getD 0
    source := doc.metadata.source.getD "unknown"
    relevance_score := if dist ≠ 0 then 1 - dist else 0 }

/-- The [ERROR] answer (lines 103-113). -/
def errorAnswer (q e : String) : Answer :=
  { answer := "An error occurred while processing your question. Please try again."
    citations := []
    sources := []
    metadata := { question := q, error := some e } }

/-- The [NO_CONTEXT] answer (lines 54-65). -/
def noContextAnswer (q : String) : Answer :=
  { answer := "I couldn\x27t find relevant information in the UET documents to answer your question."
    citations := []
    sources := []
    metadata := { guardrail_triggered := some false, retrieval_count := some 0, question := q } }

/-- The [REFUSED] answer (lines 38-48); `guardrail_response` is the fixed
`GUARDRAIL_MESSAGE`. -/
def refusedAnswer (guardrail_response q : String) : Answer :=
  { answer := guardrail_response
    citations := []
    sources := []
    metadata := { guardrail_triggered := some true, question := q } }

/-- `AnswerGenerator.generate_answer` (lines 26-113).  `retrieveFn` models the
`self.retriever.retrieve` step of `retrieve_and_format` (its `Except.error` is
a raised exception caught by the orchestrator); the formatted context is
computed from its documents exactly as `retrieve_and_format` does.
`generateFn` models `self.llm_client.generate`. -/
def generate_answer (kws : List String) (threshold : ℚ)
    (retrieveFn : String → Nat → Except String (List Doc))
    (generateFn : String → Nat → ℚ → Except String String)
    (q : String) (top_k : Nat) (max_tokens : Nat) (temperature : ℚ) : Answer :=
  let (is_valid, guardrail_response) := validate_and_respond kws threshold q
  if !is_valid then refusedAnswer guardrail_response q
  else
    match retrieveFn q top_k with
    | .error e => errorAnswer q e
    | .ok retrieved_data =>
      let context := format_context retrieved_data
      if context = "" then noContextAnswer q
      else
        match generateFn (create_prompt context q) max_tokens temperature with
        | .error e => errorAnswer q e
        | .ok answer =>
          let citations := retrieved_data.map (fun d => d.content)
          { answer := answer
            citations := citations
            sources := retrieved_data.map mkSource
            metadata := { guardrail_triggered := some false
                          retrieval_count := some citations.length
                          question := q
                          top_k := some top_k } }

/-! ### Helper lemmas -/

/-- Every member of a `isPrefixOf`-prefix is a member of the larger list. -/
theorem isPrefixOf_mem {pat l : List Char} (h : pat.isPrefixOf l = true) :
    ∀ c ∈ pat, c ∈ l := by
  induction pat generalizing l with
  | nil => intro c hc; cases hc
  | cons a as ih =>
    cases l with
    | nil => simp [List.isPrefixOf] at h
    | cons b bs =>
      simp only [List.isPrefixOf, Bool.and_eq_true, beq_iff_eq] at h
      intro c hc
      rcases List.mem_cons.mp hc with rfl | hc
      · exact h.1 ▸ List.mem_cons_self _ _
      · exact List.mem_cons_of_mem _ (ih h.2 c hc)

/-- Every member of a substring found by `inStr` is a member of the string. -/
theorem inStr_mem {pat l : List Char} (h : inStr pat l = true) :
    ∀ c ∈ pat, c ∈ l := by
  induction l with
  | nil =>
    intro c hc
    simp only [inStr, List.isEmpty_iff] at h
    subst h; cases hc
  | cons b t ih =>
    simp only [inStr, Bool.or_eq_true] at h
    intro c hc
    rcases h with h | h
    · exact isPrefixOf_mem h c hc
    · exact List.mem_cons_of_mem _ (ih h c hc)

/-- `runsByGo` returns a nonempty list whenever the accumulator is nonempty or
some remaining character satisfies the predicate. -/
theorem runsByGo_ne_nil (p : Char → Bool) :
    ∀ (l : List Char) (cur : List Char),
      (cur ≠ [] ∨ ∃ c ∈ l, p c = true) → runsByGo p cur l ≠ [] := by
  intro l
  induction l with
  | nil =>
    intro cur h
    rcases h with h | ⟨c, hc, _⟩
    · simp [runsByGo, List.isEmpty_iff, h]
    · cases hc
  | cons c cs ih =>
    intro cur h
    by_cases hp : p c = true
    · simpa [runsByGo, hp] using ih (c :: cur) (Or.inl (by simp))
    · have hp' : p c = false := by simpa using hp
      rcases h with h | ⟨c', hc', hpc'⟩
      · simp [runsByGo, hp', List.append_eq_nil, List.isEmpty_iff, h]
      · rcases List.mem_cons.mp hc' with rfl | hc'
        · exact absurd hpc' (by simp [hp'])
        · simp only [runsByGo, hp', Bool.false_eq_true, if_false]
          intro hcontra
          exact ih [] (Or.inr ⟨c', hc', hpc'⟩) (List.append_eq_nil.mp hcontra).2

/-- A word character is never whitespace. -/
theorem isWordChar_not_whitespace {c : Char} (h : isWordChar c = true) :
    c.isWhitespace = false := by
  by_contra hw
  have hw' : c.isWhitespace = true := by
    cases hws : c.isWhitespace
    · exact absurd hws hw
    · rfl
  simp only [Char.isWhitespace, Bool.or_eq_true, decide_eq_true_eq] at hw'
  rcases hw' with ((rfl | rfl) | rfl) | rfl <;> simp [isWordChar, Char.isAlphanum] at h

/-- Lowercasing fixes whitespace characters. -/
theorem toLower_whitespace {c : Char} (h : c.isWhitespace = true) :
    c.toLower = c := by
  simp only [Char.isWhitespace, Bool.or_eq_true, decide_eq_true_eq] at h
  rcases h with ((rfl | rfl) | rfl) | rfl <;> decide

/-- Unfolding of `is_department_related` on the main path (nonblank question
with at least one word token). -/
theorem is_department_related_main (kws : List String) (threshold : ℚ) (q : String)
    (hws : q.toList.all Char.isWhitespace = false)
    (htok : runsBy isWordChar (lowerChars q) ≠ []) :
    is_department_related kws threshold q =
      ⟨decide (threshold ≤ ((matchedKeywords kws q).length : ℚ)
                  / ((runsBy isWordChar (lowerChars q)).length : ℚ)
               ∨ 2 ≤ (matchedKeywords kws q).length),
       ((matchedKeywords kws q).length : ℚ)
          / ((runsBy isWordChar (lowerChars q)).length : ℚ),
       mkReason (matchedKeywords kws q)⟩ := by
  have hwsP : ¬ ∀ x ∈ q.data, x.isWhitespace = true := by
    intro hall
    have hcontra : q.toList.all Char.isWhitespace = true := List.all_eq_true.mpr hall
    rw [hws] at hcontra
    exact Bool.noConfusion hcontra
  simp [is_department_related, hwsP, htok]

/-- With a positive threshold and no keyword match, the question is rejected. -/
theorem is_related_false_of_no_match (kws : List String) (threshold : ℚ) (q : String)
    (hm : matchedKeywords kws q = []) (hθ : 0 < threshold) :
    (is_department_related kws threshold q).is_related = false := by
  by_cases hws : q.toList.all Char.isWhitespace = true
  · unfold is_department_related
    rw [if_pos hws]
  · have hws' : q.toList.all Char.isWhitespace = false := by
      cases h : q.toList.all Char.isWhitespace
      · rfl
      · exact absurd h hws
    have hwsP : ¬ ∀ x ∈ q.data, x.isWhitespace = true := by
      intro hall
      exact hws (List.all_eq_true.mpr hall)
    by_cases htok : runsBy isWordChar (lowerChars q) = []
    · simp [is_department_related, hwsP, htok]
    · rw [is_department_related_main kws threshold q hws' htok]
      simp only [hm, List.length_nil, Nat.cast_zero, zero_div]
      simp only [decide_eq_false_iff_not]
      rintro (h | h)
      · exact absurd (lt_of_lt_of_le hθ h) (lt_irrefl 0)
      · omega

/-- Two (or more) matched keywords force acceptance, provided every keyword
contains at least one word character (true of the configured keyword list):
the matches guarantee the question is neither blank nor token-free, and the
`matched_keyword_count ≥ 2` disjunct then fires regardless of the score. -/
theorem is_related_true_of_two_matches (kws : List String) (threshold : ℚ) (q : String)
    (h2 : 2 ≤ (matchedKeywords kws q).length)
    (hkw : ∀ kw ∈ kws, (lowerChars kw).any isWordChar = true) :
    (is_department_related kws threshold q).is_related = true := by
  have hne : matchedKeywords kws q ≠ [] := by
    intro h; rw [h] at h2; simp at h2
  obtain ⟨kw, hkwmem⟩ := List.exists_mem_of_ne_nil _ hne
  have hmem := hkwmem
  unfold matchedKeywords at hmem
  obtain ⟨hkwmap, hkwin⟩ := List.mem_filter.mp hmem
  obtain ⟨kw0, hkw0, rfl⟩ := List.mem_map.mp hkwmap
  have hlist : (String.mk (lowerChars kw0)).toList = lowerChars kw0 := rfl
  rw [hlist] at hkwin
  obtain ⟨c0, hc0mem, hc0⟩ := List.any_eq_true.mp (hkw kw0 hkw0)
  have hc0q : c0 ∈ lowerChars q := inStr_mem hkwin c0 hc0mem
  obtain ⟨c1, hc1mem, hc1low⟩ := List.mem_map.mp hc0q
  have hws : q.toList.all Char.isWhitespace = false := by
    cases hall : q.toList.all Char.isWhitespace
    · rfl
    · exfalso
      have hc1ws : c1.isWhitespace = true := List.all_eq_true.mp hall c1 hc1mem
      have : c0 = c1 := by rw [← hc1low, toLower_whitespace hc1ws]
      rw [this] at hc0
      rw [isWordChar_not_whitespace hc0] at hc1ws
      exact Bool.noConfusion hc1ws
  have htok : runsBy isWordChar (lowerChars q) ≠ [] :=
    runsByGo_ne_nil isWordChar (lowerChars q) [] (Or.inr ⟨c0, hc0q, hc0⟩)
  rw [is_department_related_main kws threshold q hws htok]
  exact decide_eq_true (Or.inr h2)

/-! ### Claim C2 — relevance scores of assembled sources -/

/-- Claim C2, counterexample: a retrieval result with distance exactly `0`
yields `relevance_score = 0`, not `1` as claimed — `float(1 - dist) if dist
else 0.0` treats a zero distance as falsy. -/
theorem relevance_zero_distance_cex :
    (mkSource { content := "chunk", metadata := {}, id := "doc_0", distance := some 0 }).relevance_score = 0
    ∧ ¬ (mkSource { content := "chunk", metadata := {}, id := "doc_0", distance := some 0 }).relevance_score = 1 := by
  constructor
  · rfl
  · intro h
    simp [mkSource] at h

/-- Claim C2 (amended): in a SUCCESS answer the sources are exactly
`mkSource` of the retrieved documents, and `relevance_score` equals
`1 − distance` whenever a **nonzero** distance is present, and `0` when the
distance is absent **or exactly `0`**; the score lies in `[0,1]` whenever the
present distance lies in `[0,1]`. -/
theorem relevance_score_spec (doc : Doc) :
    (doc.distance = none → (mkSource doc).relevance_score = 0)
  ∧ (doc.distance = some 0 → (mkSource doc).relevance_score = 0)
  ∧ (∀ d : ℚ, doc.distance = some d → d ≠ 0 → (mkSource doc).relevance_score = 1 - d)
  ∧ (∀ d : ℚ, doc.distance = some d → 0 ≤ d → d ≤ 1 →
      0 ≤ (mkSource doc).relevance_score ∧ (mkSource doc).relevance_score ≤ 1)
  ∧ (∀ (kws : List String) (threshold : ℚ)
      (retrieveFn : String → Nat → Except String (List Doc))
      (generateFn : String → Nat → ℚ → Except String String)
      (q : String) (top_k max_tokens : Nat) (temperature : ℚ)
      (docs : List Doc) (ans : String),
      (is_department_related kws threshold q).is_related = true →
      retrieveFn q top_k = .ok docs →
      format_context docs ≠ "" →
      generateFn (create_prompt (format_context docs) q) max_tokens temperature = .ok ans →
      (generate_answer kws threshold retrieveFn generateFn q top_k max_tokens
          temperature).sources = docs.map mkSource) := by
  refine ⟨?_, ?_, ?_, ?_, ?_⟩
  · intro h; simp [mkSource, h]
  · intro h; simp [mkSource, h]
  · intro d h hd; simp [mkSource, h, hd]
  · intro d h h0 h1
    by_cases hd : d = 0
    · subst hd; constructor <;> simp [mkSource, h]
    · constructor <;> simp [mkSource, h, hd] <;> linarith
  · intro kws threshold retrieveFn generateFn q top_k max_tokens temperature docs ans
      hacc hret hctx hgen
    simp [generate_answer, validate_and_respond, hacc, hret, hctx, hgen]

/-- Witness for `relevance_score_spec`: a present distance `1/2` gives
relevance score `1 − 1/2`. -/
theorem relevance_score_spec_witness :
    (mkSource { content := "c", metadata := {}, id := "doc_0", distance := some (1/2) }).relevance_score = 1 - 1/2 :=
  (relevance_score_spec _).2.2.1 (1/2) rfl (by norm_num)

/-! ### Claim C9 — metadata-filter priority -/

/-- Claim C9: when strict filtering derives a filter, the eligibility group
takes priority over the faculty group, which takes priority over the programs
group; with the toggle disabled no filter is derived. -/
theorem metadata_filter_priority (q : String) :
    (hasTerm eligibilityTerms (lowerChars q) = true →
      get_metadata_filter q = some "has_eligibility")
  ∧ (hasTerm eligibilityTerms (lowerChars q) = false →
      hasTerm facultyTerms (lowerChars q) = true →
      get_metadata_filter q = some "has_faculty")
  ∧ (hasTerm eligibilityTerms (lowerChars q) = false →
      hasTerm facultyTerms (lowerChars q) = false →
      hasTerm programTerms (lowerChars q) = true →
      get_metadata_filter q = some "has_programs")
  ∧ retrieval_filter false q = none := by
  refine ⟨?_, ?_, ?_, rfl⟩
  · intro h1; simp [get_metadata_filter, h1]
  · intro h1 h2; simp [get_metadata_filter, h1, h2]
  · intro h1 h2 h3; simp [get_metadata_filter, h1, h2, h3]

/-- Witness for `metadata_filter_priority`: a question containing both
"admission" and "faculty" derives the eligibility filter. -/
theorem metadata_filter_priority_witness :
    get_metadata_filter "Which admission rules does the faculty set?"
      = some "has_eligibility" :=
  (metadata_filter_priority _).1 (by decide)

/-! ### Claim C6 — the REFUSED branch -/

/-- Claim C6: a question rejected by the scope validator terminates in the
REFUSED answer — text is the fixed refusal message, citations and sources are
empty, `guardrail_triggered = true` — and the result does not depend on the
retrieval or generation components at all (no retrieval / generation is
performed). -/
theorem refused_branch_spec (kws : List String) (threshold : ℚ)
    (retrieveFn : String → Nat → Except String (List Doc))
    (generateFn : String → Nat → ℚ → Except String String)
    (q : String) (top_k max_tokens : Nat) (temperature : ℚ)
    (h : (is_department_related kws threshold q).is_related = false) :
    generate_answer kws threshold retrieveFn generateFn q top_k max_tokens temperature
      = refusedAnswer GUARDRAIL_MESSAGE q
  ∧ (refusedAnswer GUARDRAIL_MESSAGE q).answer = GUARDRAIL_MESSAGE
  ∧ (refusedAnswer GUARDRAIL_MESSAGE q).citations = []
  ∧ (refusedAnswer GUARDRAIL_MESSAGE q).sources = []
  ∧ (refusedAnswer GUARDRAIL_MESSAGE q).metadata.guardrail_triggered = some true
  ∧ (∀ (retrieveFn2 : String → Nat → Except String (List Doc))
       (generateFn2 : String → Nat → ℚ → Except String String),
       generate_answer kws threshold retrieveFn2 generateFn2 q top_k max_tokens temperature
         = generate_answer kws threshold retrieveFn generateFn q top_k max_tokens temperature) := by
  refine ⟨?_, rfl, rfl, rfl, rfl, ?_⟩
  · simp [generate_answer, validate_and_respond, h]
  · intro r2 g2
    simp [generate_answer, validate_and_respond, h]

/-- Witness for `refused_branch_spec`: the out-of-scope question
"What is the weather today?" is refused with the fixed message. -/
theorem refused_branch_spec_witness :
    generate_answer DEPARTMENT_KEYWORDS (3/20) (fun _ _ => .ok [])
        (fun _ _ _ => .ok "generated") "What is the weather today?" 5 512 (3/10)
      = refusedAnswer GUARDRAIL_MESSAGE "What is the weather today?" :=
  (refused_branch_spec DEPARTMENT_KEYWORDS (3/20) (fun _ _ => .ok [])
    (fun _ _ _ => .ok "generated") "What is the weather today?" 5 512 (3/10)
    (is_related_false_of_no_match _ _ _ (by decide) (by norm_num))).1

/-! ### More scope-validator helpers -/

/-- A whitespace-only question yields the "Empty question" rejection. -/
theorem is_department_related_empty (kws : List String) (threshold : ℚ) (q : String)
    (hws : q.toList.all Char.isWhitespace = true) :
    is_department_related kws threshold q = ⟨false, 0, "Empty question"⟩ := by
  unfold is_department_related
  rw [if_pos hws]

/-- A nonblank question with no word tokens yields the "No valid words"
rejection. -/
theorem is_department_related_noTokens (kws : List String) (threshold : ℚ) (q : String)
    (hws : q.toList.all Char.isWhitespace = false)
    (htok : runsBy isWordChar (lowerChars q) = []) :
    is_department_related kws threshold q = ⟨false, 0, "No valid words in question"⟩ := by
  have hwsP : ¬ ∀ x ∈ q.data, x.isWhitespace = true := by
    intro hall
    have hcontra : q.toList.all Char.isWhitespace = true := List.all_eq_true.mpr hall
    rw [hws] at hcontra
    exact Bool.noConfusion hcontra
  simp [is_department_related, hwsP, htok]

/-- The keyword matches of an extended keyword list split as an append. -/
theorem matchedKeywords_append (kws new_keywords : List String) (q : String) :
    matchedKeywords (kws ++ new_keywords) q
      = matchedKeywords kws q ++ matchedKeywords new_keywords q := by
  simp [matchedKeywords, List.filter_append]

/-! ### Claim C1 — per-branch metadata fields -/

/-- Claim C1, counterexample: on the REFUSED branch (out-of-scope question
"What is the weather today?") the metadata dict contains neither
`retrieval_count` nor `top_k`, contradicting the claim that every terminal
branch carries all four keys. -/
theorem answer_metadata_fields_cex :
    (generate_answer DEPARTMENT_KEYWORDS (3/20) (fun _ _ => .ok [])
        (fun _ _ _ => .ok "") "What is the weather today?" 5 512 (3/10)).metadata.retrieval_count
      = none
  ∧ (generate_answer DEPARTMENT_KEYWORDS (3/20) (fun _ _ => .ok [])
        (fun _ _ _ => .ok "") "What is the weather today?" 5 512 (3/10)).metadata.top_k
      = none := by
  have h : (is_department_related DEPARTMENT_KEYWORDS (3/20) "What is the weather today?").is_related = false :=
    is_related_false_of_no_match _ _ _ (by decide) (by norm_num)
  constructor <;> simp [generate_answer, validate_and_respond, h, refusedAnswer]

/-- Claim C1 (amended): the metadata record always contains `question`;
the other keys are branch-dependent — REFUSED carries
`{guardrail_triggered: true}`, NO_CONTEXT carries
`{guardrail_triggered: false, retrieval_count: 0}`, SUCCESS carries
`{guardrail_triggered: false, retrieval_count, top_k}`, and ERROR carries
`{error}` only. -/
theorem answer_metadata_fields_spec (kws : List String) (threshold : ℚ)
    (retrieveFn : String → Nat → Except String (List Doc))
    (generateFn : String → Nat → ℚ → Except String String)
    (q : String) (top_k max_tokens : Nat) (temperature : ℚ) :
    ((is_department_related kws threshold q).is_related = false →
      (generate_answer kws threshold retrieveFn generateFn q top_k max_tokens temperature).metadata
        = { guardrail_triggered := some true, retrieval_count := none, question := q,
            top_k := none, error := none })
  ∧ (∀ e, (is_department_related kws threshold q).is_related = true →
      retrieveFn q top_k = .error e →
      (generate_answer kws threshold retrieveFn generateFn q top_k max_tokens temperature).metadata
        = { guardrail_triggered := none, retrieval_count := none, question := q,
            top_k := none, error := some e })
  ∧ (∀ docs, (is_department_related kws threshold q).is_related = true →
      retrieveFn q top_k = .ok docs → format_context docs = "" →
      (generate_answer kws threshold retrieveFn generateFn q top_k max_tokens temperature).metadata
        = { guardrail_triggered := some false, retrieval_count := some 0, question := q,
            top_k := none, error := none })
  ∧ (∀ docs ans, (is_department_related kws threshold q).is_related = true →
      retrieveFn q top_k = .ok docs → format_context docs ≠ "" →
      generateFn (create_prompt (format_context docs) q) max_tokens temperature = .ok ans →
      (generate_answer kws threshold retrieveFn generateFn q top_k max_tokens temperature).metadata
        = { guardrail_triggered := some false, retrieval_count := some docs.length,
            question := q, top_k := some top_k, error := none })
  ∧ (∀ docs e, (is_department_related kws threshold q).is_related = true →
      retrieveFn q top_k = .ok docs → format_context docs ≠ "" →
      generateFn (create_prompt (format_context docs) q) max_tokens temperature = .error e →
      (generate_answer kws threshold retrieveFn generateFn q top_k max_tokens temperature).metadata
        = { guardrail_triggered := none, retrieval_count := none, question := q,
            top_k := none, error := some e })
  ∧ (generate_answer kws threshold retrieveFn generateFn q top_k max_tokens temperature).metadata.question
      = q := by
  refine ⟨?_, ?_, ?_, ?_, ?_, ?_⟩
  · intro h
    simp [generate_answer, validate_and_respond, h, refusedAnswer]
  · intro e h hret
    simp [generate_answer, validate_and_respond, h, hret, errorAnswer]
  · intro docs h hret hctx
    simp [generate_answer, validate_and_respond, h, hret, hctx, noContextAnswer]
  · intro docs ans h hret hctx hgen
    simp [generate_answer, validate_and_respond, h, hret, hctx, hgen]
  · intro docs e h hret hctx hgen
    simp [generate_answer, validate_and_respond, h, hret, hctx, hgen, errorAnswer]
  · by_cases h : (is_department_related kws threshold q).is_related
    · rcases hret : retrieveFn q top_k with e | docs
      · simp [generate_answer, validate_and_respond, h, hret, errorAnswer]
      · by_cases hctx : format_context docs = ""
        · simp [generate_answer, validate_and_respond, h, hret, hctx, noContextAnswer]
        · rcases hgen : generateFn (create_prompt (format_context docs) q) max_tokens temperature
            with e | ans
          · simp [generate_answer, validate_and_respond, h, hret, hctx, hgen, errorAnswer]
          · simp [generate_answer, validate_and_respond, h, hret, hctx, hgen]
    · have h' : (is_department_related kws threshold q).is_related = false := by
        cases hh : (is_department_related kws threshold q).is_related
        · rfl
        · exact absurd hh h
      simp [generate_answer, validate_and_respond, h', refusedAnswer]

/-- Witness for `answer_metadata_fields_spec`: the REFUSED branch of the
weather question carries exactly `{guardrail_triggered: true, question}`. -/
theorem answer_metadata_fields_spec_witness :
    (generate_answer DEPARTMENT_KEYWORDS (3/20) (fun _ _ => .ok [])
        (fun _ _ _ => .ok "") "What is the weather today?" 5 512 (3/10)).metadata
      = { guardrail_triggered := some true, retrieval_count := none,
          question := "What is the weather today?", top_k := none, error := none } :=
  (answer_metadata_fields_spec DEPARTMENT_KEYWORDS (3/20) (fun _ _ => .ok [])
      (fun _ _ _ => .ok "") "What is the weather today?" 5 512 (3/10)).1
    (is_related_false_of_no_match _ _ _ (by decide) (by norm_num))

/-! ### Claim C4 — failures after guardrail acceptance become ERROR answers -/

/-- Claim C4: for an accepted question, a failing retrieval step or a failing
generation step is caught and produces the well-formed generic ERROR answer:
fixed failure text, `metadata.error` set, empty citations and sources.  (The
model of `generate_answer` is a total function: every branch, including these
failure branches, returns an `Answer`, mirroring the orchestrator-level
`except` that prevents exceptions from escaping.) -/
theorem error_branch_spec (kws : List String) (threshold : ℚ)
    (retrieveFn : String → Nat → Except String (List Doc))
    (generateFn : String → Nat → ℚ → Except String String)
    (q : String) (top_k max_tokens : Nat) (temperature : ℚ)
    (hacc : (is_department_related kws threshold q).is_related = true) :
    (∀ e, retrieveFn q top_k = .error e →
      generate_answer kws threshold retrieveFn generateFn q top_k max_tokens temperature
        = errorAnswer q e)
  ∧ (∀ docs e, retrieveFn q top_k = .ok docs → format_context docs ≠ "" →
      generateFn (create_prompt (format_context docs) q) max_tokens temperature = .error e →
      generate_answer kws threshold retrieveFn generateFn q top_k max_tokens temperature
        = errorAnswer q e)
  ∧ (∀ e, (errorAnswer q e).answer
        = "An error occurred while processing your question. Please try again."
      ∧ (errorAnswer q e).citations = []
      ∧ (errorAnswer q e).sources = []
      ∧ (errorAnswer q e).metadata.error = some e) := by
  refine ⟨?_, ?_, ?_⟩
  · intro e hret
    simp [generate_answer, validate_and_respond, hacc, hret]
  · intro docs e hret hctx hgen
    simp [generate_answer, validate_and_respond, hacc, hret, hctx, hgen]
  · intro e
    exact ⟨rfl, rfl, rfl, rfl⟩

/-- Witness for `error_branch_spec`: for the in-scope question
"admission fee structure?" a failing retrieval step yields the ERROR answer. -/
theorem error_branch_spec_witness :
    generate_answer DEPARTMENT_KEYWORDS (3/20) (fun _ _ => .error "index unavailable")
        (fun _ _ _ => .ok "generated") "admission fee structure?" 3 256 (3/10)
      = errorAnswer "admission fee structure?" "index unavailable" :=
  (error_branch_spec DEPARTMENT_KEYWORDS (3/20) (fun _ _ => .error "index unavailable")
      (fun _ _ _ => .ok "generated") "admission fee structure?" 3 256 (3/10)
      (is_related_true_of_two_matches _ _ _ (by decide) (by decide))).1
    "index unavailable" rfl

/-! ### Claim C3 — query embedding and the silent fallback -/

/-- Claim C3, counterexample: when the embedder raises, `Retriever.retrieve`
does **not** re-raise; the exception is swallowed (lines 41-44), the query is
issued with `query_embeddings = None`, and the vector store falls back to
embedding the query text with the collection's own embedding function.  The
probe `collectionQuery` returns a document recording which path was taken. -/
theorem retrieve_swallow_cex :
    retrieve false (fun _ => .error "embedding failure")
        (fun p => .ok { documents := [if p.query_embeddings.isNone then "fallback-path" else "embedding-path"] })
        "Which course?" 3
      = .ok [{ content := "fallback-path", metadata := {}, id := "doc_0", distance := some 0 }] := by
  rfl

/-- Claim C3 (amended): `Retriever.retrieve` embeds the **expanded** question
with the configured embedder and, on success, passes exactly that embedding to
the vector index query; an embedding failure, however, is caught (not raised)
and the query silently falls back to the text path `query_texts = [expanded]`,
letting the vector store apply its own embedding function. -/
theorem retrieve_embedding_spec (applyFilter : Bool)
    (embedFn : String → Except String (List ℚ))
    (collectionQuery : QueryParams → Except String QueryResult)
    (q : String) (k : Nat) :
    (∀ v, embedFn (expand_query q) = .ok v →
      retrieve applyFilter embedFn collectionQuery q k
        = (collectionQuery { n_results := k, query_embeddings := some [v],
                             query_texts := none,
                             whereFilter := retrieval_filter applyFilter q }).map assembleDocs)
  ∧ (∀ e, embedFn (expand_query q) = .error e →
      retrieve applyFilter embedFn collectionQuery q k
        = (collectionQuery { n_results := k, query_embeddings := none,
                             query_texts := some [some (expand_query q)],
                             whereFilter := retrieval_filter applyFilter q }).map assembleDocs) := by
  constructor
  · intro v hemb
    rcases hf : retrieval_filter applyFilter q with _ | w <;>
      simp [retrieve, vector_store_query, hemb, hf]
  · intro e hemb
    rcases hf : retrieval_filter applyFilter q with _ | w <;>
      simp [retrieve, vector_store_query, hemb, hf]

/-- Witness for `retrieve_embedding_spec`: with a working embedder, the
embedding of the expanded query is what reaches the collection query. -/
theorem retrieve_embedding_spec_witness :
    retrieve false (fun _ => .ok [1, 2, 3])
        (fun p => .ok { documents := [if p.query_embeddings.isNone then "fallback-path" else "embedding-path"] })
        "Which course?" 3
      = .ok [{ content := "embedding-path", metadata := {}, id := "doc_0", distance := some 0 }] := by
  have h := (retrieve_embedding_spec false (fun _ => .ok [1, 2, 3])
      (fun p => .ok { documents := [if p.query_embeddings.isNone then "fallback-path" else "embedding-path"] })
      "Which course?" 3).1 ([1, 2, 3] : List ℚ) rfl
  rw [h]
  rfl

/-! ### Claim C10 — monotonicity in the keyword list -/

/-- Claim C10: extending the keyword list via `add_keywords` can only grow the
matched-keyword count and the score, and cannot turn an accepted question into
a rejected one (`is_related` is monotone as a Bool). -/
theorem scope_monotone_spec (kws new_keywords : List String) (threshold : ℚ) (q : String) :
    (matchedKeywords kws q).length
      ≤ (matchedKeywords (add_keywords kws new_keywords) q).length
  ∧ (is_department_related kws threshold q).score
      ≤ (is_department_related (add_keywords kws new_keywords) threshold q).score
  ∧ (is_department_related kws threshold q).is_related
      ≤ (is_department_related (add_keywords kws new_keywords) threshold q).is_related := by
  have hlen : (matchedKeywords (add_keywords kws new_keywords) q).length
      = (matchedKeywords kws q).length + (matchedKeywords new_keywords q).length := by
    simp [add_keywords, matchedKeywords_append]
  refine ⟨by omega, ?_, ?_⟩
  · by_cases hws : q.toList.all Char.isWhitespace = true
    · rw [is_department_related_empty kws threshold q hws,
        is_department_related_empty (add_keywords kws new_keywords) threshold q hws]
    · have hws' : q.toList.all Char.isWhitespace = false := by
        cases hh : q.toList.all Char.isWhitespace
        · rfl
        · exact absurd hh hws
      by_cases htok : runsBy isWordChar (lowerChars q) = []
      · rw [is_department_related_noTokens kws threshold q hws' htok,
          is_department_related_noTokens (add_keywords kws new_keywords) threshold q hws' htok]
      · rw [is_department_related_main kws threshold q hws' htok,
          is_department_related_main (add_keywords kws new_keywords) threshold q hws' htok]
        have hT : (0 : ℚ) < ((runsBy isWordChar (lowerChars q)).length : ℚ) := by
          have := List.length_pos.mpr htok
          exact_mod_cast this
        apply div_le_div_of_nonneg_right ?_ hT.le
        exact_mod_cast Nat.le.intro hlen.symm
  · by_cases hws : q.toList.all Char.isWhitespace = true
    · rw [is_department_related_empty kws threshold q hws,
        is_department_related_empty (add_keywords kws new_keywords) threshold q hws]
    · have hws' : q.toList.all Char.isWhitespace = false := by
        cases hh : q.toList.all Char.isWhitespace
        · rfl
        · exact absurd hh hws
      by_cases htok : runsBy isWordChar (lowerChars q) = []
      · rw [is_department_related_noTokens kws threshold q hws' htok,
          is_department_related_noTokens (add_keywords kws new_keywords) threshold q hws' htok]
      · rw [is_department_related_main kws threshold q hws' htok,
          is_department_related_main (add_keywords kws new_keywords) threshold q hws' htok]
        simp only
        have hT : (0 : ℚ) < ((runsBy isWordChar (lowerChars q)).length : ℚ) := by
          have := List.length_pos.mpr htok
          exact_mod_cast this
        have hmono : (threshold ≤ ((matchedKeywords kws q).length : ℚ)
              / ((runsBy isWordChar (lowerChars q)).length : ℚ)
            ∨ 2 ≤ (matchedKeywords kws q).length) →
            (threshold ≤ ((matchedKeywords (add_keywords kws new_keywords) q).length : ℚ)
              / ((runsBy isWordChar (lowerChars q)).length : ℚ)
            ∨ 2 ≤ (matchedKeywords (add_keywords kws new_keywords) q).length) := by
          rintro (h | h)
          · left
            refine le_trans h (div_le_div_of_nonneg_right ?_ hT.le)
            exact_mod_cast Nat.le.intro hlen.symm
          · right
            omega
        by_cases hd : threshold ≤ ((matchedKeywords kws q).length : ℚ)
              / ((runsBy isWordChar (lowerChars q)).length : ℚ)
            ∨ 2 ≤ (matchedKeywords kws q).length
        · rw [decide_eq_true hd, decide_eq_true (hmono hd)]
        · rw [decide_eq_false hd]
          exact Bool.false_le _

/-! ### Claim C5 — scope classification -/

/-- Claim C5: classification computes `score = matched_keyword_count /
token_count` and accepts iff `score ≥ threshold` or at least two keywords
matched; blank (or token-free) input is rejected with score 0; for the
configured keyword list, two substring hits force acceptance regardless of the
score/threshold comparison.  The configured keyword list is duplicate-free
(after lowercasing), so the match count is the number of distinct matched
keywords. -/
theorem scope_classification_spec (kws : List String) (threshold : ℚ) (q : String) :
    (q.toList.all Char.isWhitespace = true →
      is_department_related kws threshold q = ⟨false, 0, "Empty question"⟩)
  ∧ (q.toList.all Char.isWhitespace = false →
      runsBy isWordChar (lowerChars q) = [] →
      is_department_related kws threshold q = ⟨false, 0, "No valid words in question"⟩)
  ∧ (q.toList.all Char.isWhitespace = false →
      runsBy isWordChar (lowerChars q) ≠ [] →
      (is_department_related kws threshold q).score
          = ((matchedKeywords kws q).length : ℚ)
              / ((runsBy isWordChar (lowerChars q)).length : ℚ)
      ∧ ((is_department_related kws threshold q).is_related = true ↔
          threshold ≤ ((matchedKeywords kws q).length : ℚ)
              / ((runsBy isWordChar (lowerChars q)).length : ℚ)
          ∨ 2 ≤ (matchedKeywords kws q).length))
  ∧ (2 ≤ (matchedKeywords DEPARTMENT_KEYWORDS q).length →
      (is_department_related DEPARTMENT_KEYWORDS threshold q).is_related = true)
  ∧ (DEPARTMENT_KEYWORDS.map (fun kw => String.mk (lowerChars kw))).Nodup := by
  refine ⟨?_, ?_, ?_, ?_, by decide⟩
  · intro hws
    exact is_department_related_empty kws threshold q hws
  · intro hws htok
    exact is_department_related_noTokens kws threshold q hws htok
  · intro hws htok
    rw [is_department_related_main kws threshold q hws htok]
    exact ⟨rfl, by simp⟩
  · intro h2
    exact is_related_true_of_two_matches DEPARTMENT_KEYWORDS threshold q h2 (by decide)

/-- Witness for `scope_classification_spec`: "admission fee structure?" has
two keyword hits and is accepted regardless of the threshold comparison. -/
theorem scope_classification_spec_witness :
    (is_department_related DEPARTMENT_KEYWORDS (3/20) "admission fee structure?").is_related
      = true :=
  (scope_classification_spec DEPARTMENT_KEYWORDS (3/20) "admission fee structure?").2.2.2.1
    (by decide)

/-! ### Chunker helpers -/

/-- `chunkWindowsAux` on the empty word list. -/
theorem chunkWindowsAux_nil {α : Type} (S dp : Nat) :
    chunkWindowsAux S dp ([] : List α) = [] := by
  rw [chunkWindowsAux]
  rfl

/-- `chunkWindowsAux` when all words fit in one window. -/
theorem chunkWindowsAux_small {α : Type} (S dp : Nat) (ws : List α)
    (h1 : ws ≠ []) (h2 : ws.length ≤ S) :
    chunkWindowsAux S dp ws = [ws] := by
  rw [chunkWindowsAux]
  simp [List.isEmpty_iff, h1, h2]

/-- `chunkWindowsAux` when more than `S` words remain: emit a full window and
recurse `dp + 1` words further on. -/
theorem chunkWindowsAux_step {α : Type} (S dp : Nat) (ws : List α)
    (h2 : S < ws.length) :
    chunkWindowsAux S dp ws = ws.take S :: chunkWindowsAux S dp (ws.drop (dp + 1)) := by
  have h1 : ws ≠ [] := by
    intro h
    rw [h] at h2
    simp at h2
  rw [chunkWindowsAux]
  simp [List.isEmpty_iff, h1, Nat.not_le.mpr h2]

/-- Number of windows: `1` when all words fit, otherwise the ceiling of
`(W - (S - d)) / d` where `d = dp + 1` is the step. -/
theorem chunkWindowsAux_length {α : Type} (S dp : Nat) (hdS : dp + 1 ≤ S) :
    ∀ (W : Nat) (ws : List α), ws.length = W → ws ≠ [] →
      (chunkWindowsAux S dp ws).length
        = if ws.length ≤ S then 1
          else (ws.length - (S - (dp + 1)) + (dp + 1) - 1) / (dp + 1) := by
  intro W
  induction W using Nat.strong_induction_on with
  | _ W ih =>
    intro ws hW hne
    by_cases hle : ws.length ≤ S
    · rw [chunkWindowsAux_small S dp ws hne hle, if_pos hle]
      rfl
    · push_neg at hle
      rw [chunkWindowsAux_step S dp ws hle, if_neg (Nat.not_le.mpr hle)]
      have hdrop_len : (ws.drop (dp + 1)).length = ws.length - (dp + 1) := by
        simp [List.length_drop]
      have hdrop_ne : ws.drop (dp + 1) ≠ [] := by
        intro h
        have := congrArg List.length h
        rw [hdrop_len] at this
        simp at this
        omega
      have hrec := ih (ws.length - (dp + 1)) (by omega) (ws.drop (dp + 1)) hdrop_len hdrop_ne
      rw [List.length_cons, hrec, hdrop_len]
      by_cases hsmall : ws.length - (dp + 1) ≤ S
      · rw [if_pos hsmall]
        have hlo : 2 * (dp + 1) ≤ ws.length - (S - (dp + 1)) + (dp + 1) - 1 := by omega
        have hhi : ws.length - (S - (dp + 1)) + (dp + 1) - 1 < (2 + 1) * (dp + 1) := by omega
        rw [Nat.div_eq_of_lt_le hlo hhi]
      · rw [if_neg hsmall]
        have e1 : ws.length - (dp + 1) - (S - (dp + 1)) + (dp + 1) - 1
            = ws.length - (S - (dp + 1)) - 1 := by omega
        have e2 : ws.length - (S - (dp + 1)) + (dp + 1) - 1
            = (ws.length - (S - (dp + 1)) - 1) + (dp + 1) := by omega
        rw [e1, e2, Nat.add_div_right _ (by omega : 0 < dp + 1)]

/-- The `i`-th window starts `i * (dp + 1)` words into the text and takes at
most `S` words. -/
theorem chunkWindowsAux_getD {α : Type} (S dp : Nat) :
    ∀ (i : Nat) (ws : List α), i < (chunkWindowsAux S dp ws).length →
      (chunkWindowsAux S dp ws).getD i [] = (ws.drop (i * (dp + 1))).take S := by
  intro i
  induction i with
  | zero =>
    intro ws hi
    by_cases hne : ws = []
    · rw [hne, chunkWindowsAux_nil] at hi
      simp at hi
    · by_cases hle : ws.length ≤ S
      · rw [chunkWindowsAux_small S dp ws hne hle]
        simp [List.take_of_length_le hle]
      · push_neg at hle
        rw [chunkWindowsAux_step S dp ws hle]
        simp
  | succ i ihi =>
    intro ws hi
    by_cases hne : ws = []
    · rw [hne, chunkWindowsAux_nil] at hi
      simp at hi
    · by_cases hle : ws.length ≤ S
      · rw [chunkWindowsAux_small S dp ws hne hle] at hi
        simp at hi
      · push_neg at hle
        rw [chunkWindowsAux_step S dp ws hle] at hi ⊢
        simp only [List.length_cons] at hi
        have hi' : i < (chunkWindowsAux S dp (ws.drop (dp + 1))).length := by omega
        rw [List.getD_cons_succ, ihi (ws.drop (dp + 1)) hi', List.drop_drop]
        congr 2
        rw [Nat.succ_mul]
        omega

/-- Every window holds at most `S` words. -/
theorem chunkWindowsAux_mem_length_le {α : Type} (S dp : Nat) :
    ∀ (W : Nat) (ws : List α), ws.length = W →
      ∀ c ∈ chunkWindowsAux S dp ws, c.length ≤ S := by
  intro W
  induction W using Nat.strong_induction_on with
  | _ W ih =>
    intro ws hW c hc
    by_cases hne : ws = []
    · rw [hne, chunkWindowsAux_nil] at hc
      cases hc
    · by_cases hle : ws.length ≤ S
      · rw [chunkWindowsAux_small S dp ws hne hle] at hc
        rcases List.mem_singleton.mp hc with rfl
        exact hle
      · push_neg at hle
        rw [chunkWindowsAux_step S dp ws hle] at hc
        rcases List.mem_cons.mp hc with rfl | hc
        · simp [List.length_take]
        · have hW1 : 0 < ws.length := by
            rcases ws with _ | ⟨a, l⟩
            · exact absurd rfl hne
            · simp
          exact ih (ws.length - (dp + 1)) (by omega) (ws.drop (dp + 1))
            (by simp [List.length_drop]) c hc

/-- A window with a successor window is full: its start leaves more than `S`
words. -/
theorem chunkWindowsAux_nonfinal {α : Type} (S dp : Nat) :
    ∀ (i : Nat) (ws : List α), i + 1 < (chunkWindowsAux S dp ws).length →
      i * (dp + 1) + S < ws.length := by
  intro i
  induction i with
  | zero =>
    intro ws hi
    by_cases hne : ws = []
    · rw [hne, chunkWindowsAux_nil] at hi
      simp at hi
    · by_cases hle : ws.length ≤ S
      · rw [chunkWindowsAux_small S dp ws hne hle] at hi
        simp at hi
      · push_neg at hle
        simpa using hle
  | succ i ihi =>
    intro ws hi
    by_cases hne : ws = []
    · rw [hne, chunkWindowsAux_nil] at hi
      simp at hi
    · by_cases hle : ws.length ≤ S
      · rw [chunkWindowsAux_small S dp ws hne hle] at hi
        simp at hi
      · push_neg at hle
        rw [chunkWindowsAux_step S dp ws hle] at hi
        simp only [List.length_cons] at hi
        have := ihi (ws.drop (dp + 1)) (by omega)
        rw [List.length_drop] at this
        have hmul : (i + 1) * (dp + 1) = i * (dp + 1) + (dp + 1) := by
          rw [Nat.succ_mul]
        omega

/-! ### Claim C7 — fixed-window chunking -/

/-- Claim C7: for `O < S` and a text of `W > 0` words, `chunk_by_words`
produces the word windows joined with spaces; there are exactly
`⌈(W - O) / (S - O)⌉ = (W - O + (S - O) - 1) / (S - O)` chunks (`1` when
`W ≤ S`), each window holds at most `S` words, window `i` starts `i * (S - O)`
words into the text (so each window starts `S - O` words after its
predecessor), and each pair of consecutive windows shares exactly `O` words:
the first `O` words of window `i + 1` are the last `O` words of window `i`. -/
theorem chunk_by_words_spec (S O : Nat) (text : String)
    (hSO : O < S) (hW : 0 < (pyWords text).length) :
    chunk_by_words S O text = (chunkWindows S O (pyWords text)).map (fun cws => pyJoin " " cws)
  ∧ ((chunk_by_words S O text).length
      = if (pyWords text).length ≤ S then 1
        else ((pyWords text).length - O + (S - O) - 1) / (S - O))
  ∧ (∀ c ∈ chunkWindows S O (pyWords text), c.length ≤ S)
  ∧ (∀ i, i < (chunkWindows S O (pyWords text)).length →
      (chunkWindows S O (pyWords text)).getD i []
        = ((pyWords text).drop (i * (S - O))).take S)
  ∧ (∀ i, i + 1 < (chunkWindows S O (pyWords text)).length →
      ((chunkWindows S O (pyWords text)).getD (i + 1) []).take O
          = ((chunkWindows S O (pyWords text)).getD i []).drop (S - O)
      ∧ (((chunkWindows S O (pyWords text)).getD i []).drop (S - O)).length = O) := by
  have htext : text ≠ "" := by
    intro h
    rw [h] at hW
    exact absurd hW (by decide)
  have hne : pyWords text ≠ [] := by
    intro h
    rw [h] at hW
    simp at hW
  have hdp : (S - O - 1) + 1 = S - O := by omega
  have hchunks : chunk_by_words S O text
      = (chunkWindows S O (pyWords text)).map (fun cws => pyJoin " " cws) := by
    rw [chunk_by_words, if_neg htext]
  refine ⟨hchunks, ?_, ?_, ?_, ?_⟩
  · rw [hchunks, List.length_map, chunkWindows,
      chunkWindowsAux_length S (S - O - 1) (by omega) (pyWords text).length _ rfl hne]
    rw [hdp]
    have e2 : S - (S - O) = O := by omega
    rw [e2]
  · intro c hc
    exact chunkWindowsAux_mem_length_le S (S - O - 1) (pyWords text).length _ rfl c hc
  · intro i hi
    rw [chunkWindows] at hi ⊢
    rw [chunkWindowsAux_getD S (S - O - 1) i _ hi, hdp]
  · intro i hi
    rw [chunkWindows] at hi ⊢
    have hi1 : i + 1 < (chunkWindowsAux S (S - O - 1) (pyWords text)).length := hi
    have hi0 : i < (chunkWindowsAux S (S - O - 1) (pyWords text)).length := by omega
    have hnf := chunkWindowsAux_nonfinal S (S - O - 1) i (pyWords text) hi1
    rw [hdp] at hnf
    rw [chunkWindowsAux_getD S (S - O - 1) (i + 1) _ hi1,
      chunkWindowsAux_getD S (S - O - 1) i _ hi0, hdp]
    constructor
    · rw [List.take_take, Nat.min_eq_left (le_of_lt hSO), List.drop_take, List.drop_drop]
      have e3 : S - (S - O) = O := by omega
      have e4 : i * (S - O) + (S - O) = (i + 1) * (S - O) := (Nat.succ_mul i (S - O)).symm
      rw [e3, e4]
    · rw [List.length_drop, List.length_take, List.length_drop]
      have hlen : S ⊓ ((pyWords text).length - i * (S - O)) = S := by
        rw [Nat.min_eq_left]
        omega
      rw [hlen]
      omega

/-- Witness for `chunk_by_words_spec`: ten words with `S = 5`, `O = 2` give
`⌈(10 - 2) / 3⌉ = 3` chunks. -/
theorem chunk_by_words_spec_witness :
    (chunk_by_words 5 2 "w0 w1 w2 w3 w4 w5 w6 w7 w8 w9").length
      = if (pyWords "w0 w1 w2 w3 w4 w5 w6 w7 w8 w9").length ≤ 5 then 1
        else ((pyWords "w0 w1 w2 w3 w4 w5 w6 w7 w8 w9").length - 2 + (5 - 2) - 1) / (5 - 2) :=
  (chunk_by_words_spec 5 2 "w0 w1 w2 w3 w4 w5 w6 w7 w8 w9" (by omega) (by decide)).2.1

/-! ### Join / run helpers for chunk non-emptiness -/

/-- The fold in `pyJoin` only appends to its accumulator. -/
theorem pyJoin_foldl_data (sep : String) :
    ∀ (ps : List String) (acc : String),
      ∃ t, (ps.foldl (fun a q => a ++ sep ++ q) acc).data = acc.data ++ t := by
  intro ps
  induction ps with
  | nil => intro acc; exact ⟨[], by simp⟩
  | cons q qs ih =>
    intro acc
    obtain ⟨t, ht⟩ := ih (acc ++ sep ++ q)
    refine ⟨sep.data ++ q.data ++ t, ?_⟩
    simp only [List.foldl_cons]
    rw [ht]
    simp [String.data_append]

/-- Joining a list whose first part is a nonempty string is nonempty. -/
theorem pyJoin_ne_empty (w : String) (ws : List String) (hw : w ≠ "") :
    pyJoin " " (w :: ws) ≠ "" := by
  obtain ⟨t, ht⟩ := pyJoin_foldl_data " " ws w
  intro h
  rw [pyJoin] at h
  rw [h] at ht
  have hwdata : w.data = [] := by
    have h2 := ht.symm
    rcases List.append_eq_nil.mp h2 with ⟨h1, _⟩
    exact h1
  exact hw (String.ext_iff.mpr hwdata)

/-- Every run emitted by `runsByGo` is nonempty. -/
theorem runsByGo_mem_ne_nil (p : Char → Bool) :
    ∀ (l : List Char) (cur : List Char), ∀ r ∈ runsByGo p cur l, r ≠ [] := by
  intro l
  induction l with
  | nil =>
    intro cur r hr
    by_cases hcur : cur.isEmpty
    · simp [runsByGo, hcur] at hr
    · simp only [runsByGo, if_neg hcur] at hr
      rcases List.mem_singleton.mp hr with rfl
      simp [List.reverse_eq_nil_iff]
      intro h
      rw [h] at hcur
      exact hcur rfl
  | cons c cs ih =>
    intro cur r hr
    by_cases hp : p c = true
    · exact ih (c :: cur) r (by simpa [runsByGo, hp] using hr)
    · have hp' : p c = false := by simpa using hp
      simp only [runsByGo, hp', Bool.false_eq_true, if_false] at hr
      rcases List.mem_append.mp hr with hr | hr
      · by_cases hcur : cur.isEmpty
        · simp [hcur] at hr
        · simp only [if_neg hcur] at hr
          rcases List.mem_singleton.mp hr with rfl
          simp [List.reverse_eq_nil_iff]
          intro h
          rw [h] at hcur
          exact hcur rfl
      · exact ih [] r hr

/-- Every word produced by Python `split()` is a nonempty string. -/
theorem pyWords_mem_ne (s : String) : ∀ w ∈ pyWords s, w ≠ "" := by
  intro w hw
  obtain ⟨cs, hcs, rfl⟩ := List.mem_map.mp hw
  have hne := runsByGo_mem_ne_nil (fun c => !c.isWhitespace) s.toList [] cs hcs
  intro h
  exact hne (String.ext_iff.mp h)

/-- With a positive window size, every window is nonempty and draws its
elements from the input words. -/
theorem chunkWindowsAux_mem_ne_nil {α : Type} (S dp : Nat) (hS : 0 < S) :
    ∀ (W : Nat) (ws : List α), ws.length = W →
      ∀ c ∈ chunkWindowsAux S dp ws, c ≠ [] ∧ ∀ x ∈ c, x ∈ ws := by
  intro W
  induction W using Nat.strong_induction_on with
  | _ W ih =>
    intro ws hW c hc
    by_cases hne : ws = []
    · rw [hne, chunkWindowsAux_nil] at hc
      cases hc
    · by_cases hle : ws.length ≤ S
      · rw [chunkWindowsAux_small S dp ws hne hle] at hc
        rcases List.mem_singleton.mp hc with rfl
        exact ⟨hne, fun x hx => hx⟩
      · push_neg at hle
        rw [chunkWindowsAux_step S dp ws hle] at hc
        rcases List.mem_cons.mp hc with rfl | hc
        · constructor
          · rw [Ne, List.take_eq_nil_iff]
            rintro (h | h)
            · omega
            · exact absurd h hne
          · exact fun x hx => List.take_subset S ws hx
        · have hW1 : 0 < ws.length := by
            rcases ws with _ | ⟨a, l⟩
            · exact absurd rfl hne
            · simp
          obtain ⟨h1, h2⟩ := ih (ws.length - (dp + 1)) (by omega) (ws.drop (dp + 1))
            (by simp [List.length_drop]) c hc
          exact ⟨h1, fun x hx => List.drop_subset _ ws (h2 x hx)⟩

/-! ### Claim C8 — empty input and chunk non-emptiness -/

/-- Claim C8, counterexample: sentence-packing chunking of the empty text
returns `[""]` — one **empty** chunk — not the empty sequence:
`re.split(r'(?<=[.!?])\s+', "")` is `[""]`, the empty sentence is packed, and
the final `if current_chunk` check sees the truthy list `[""]`. -/
theorem chunk_by_sentences_empty_cex :
    chunk_by_sentences 500 "" = [""]
  ∧ chunk_by_sentences 500 "" ≠ []
  ∧ "" ∈ chunk_by_sentences 500 "" := by
  refine ⟨rfl, by decide, by decide⟩

/-- Claim C8 (amended): fixed-window chunking maps empty input to the empty
sequence and every chunk it produces is a nonempty string; sentence-packing
and section-aware chunking instead map empty input to the single empty chunk
`[""]` (section-aware mode finds no heading in the empty text and falls back
to sentence-packing). -/
theorem chunk_modes_empty_spec (S O : Nat) (hSO : O < S) :
    chunk_by_words S O "" = []
  ∧ (∀ text, ∀ c ∈ chunk_by_words S O text, c ≠ "")
  ∧ chunk_by_sentences S "" = [""]
  ∧ chunk_by_sections S "" = [""] := by
  have hsent : chunk_by_sentences S "" = [""] := by
    show packGo S [] 0 (sentenceSplit "") = [""]
    have h1 : sentenceSplit "" = [""] := rfl
    rw [h1]
    simp [packGo, pyWords, runsBy, runsByGo, emitChunk, pyJoin]
  refine ⟨rfl, ?_, hsent, ?_⟩
  · intro text c hc
    by_cases htext : text = ""
    · rw [htext] at hc
      cases hc
    · rw [chunk_by_words, if_neg htext] at hc
      obtain ⟨cws, hcws, rfl⟩ := List.mem_map.mp hc
      obtain ⟨hne, hsub⟩ := chunkWindowsAux_mem_ne_nil S (S - O - 1) (by omega)
        (pyWords text).length (pyWords text) rfl cws hcws
      rcases cws with _ | ⟨w, rest⟩
      · exact absurd rfl hne
      · exact pyJoin_ne_empty w rest (pyWords_mem_ne text w (hsub w (by simp)))
  · show chunk_by_sections S "" = [""]
    have hfb : chunk_by_sections S "" = chunk_by_sentences S "" := rfl
    rw [hfb, hsent]

/-- Witness for `chunk_modes_empty_spec` at the default parameters
`S = 500`, `O = 100`. -/
theorem chunk_modes_empty_spec_witness :
    chunk_by_words 500 100 "" = [] ∧ chunk_by_sections 500 "" = [""] :=
  ⟨(chunk_modes_empty_spec 500 100 (by omega)).1,
   (chunk_modes_empty_spec 500 100 (by omega)).2.2.2⟩
